import Mathlib

set_option maxRecDepth 4000

/-!
Verification development for the AI provider-orchestration subsystem
(`src/services/ai_manager.py`): quota accounting (`QuotaManager`),
content validation (`ContentValidator`), provider circuit-breaking and
fallback (`AIManager`), and the cycle-safe serializer (`safe_serialize`).

Conventions of the embedding:
* Python `datetime`/`time.time()` instants are modelled as `Nat` seconds;
  `timedelta(days=1)` is `86400`, one hour is `3600`.
* Python dicts keyed by provider name are modelled as functions
  `String → Option _` together with an explicit key list where the code
  iterates over the dict.
* The provider network clients are external collaborators; the outcome of
  one call is modelled as `Except String (Option String)`: `.error msg`
  for a raised exception with message `msg`, `.ok r` for the local
  variable `result` computed by the per-provider branch (`none` when the
  branch leaves `result = None`).
* Python exceptions that escape a function are modelled with `Except`;
  code paths that cannot raise return plain values.
-/

/-! ## String helpers (Python substring / split semantics) -/

/-- Substring test on character lists: `pat` occurs somewhere in `hay`
(Python `pat in hay`). -/
def charsContains (hay pat : List Char) : Bool :=
  match hay with
  | [] => pat.isEmpty
  | _ :: rest => pat.isPrefixOf hay || charsContains rest pat

/-- Python `pat in hay` for strings. -/
def containsSubstr (hay pat : String) : Bool :=
  charsContains hay.data pat.data

/-- Python `str.strip()`: remove leading and trailing whitespace. -/
def pyStrip (s : String) : String :=
  ⟨((s.data.dropWhile Char.isWhitespace).reverse.dropWhile Char.isWhitespace).reverse⟩

/-- Python `str.lower()` (ASCII case folding; it covers every cased
character in this code base's patterns). -/
def pyToLower (s : String) : String := ⟨s.data.map Char.toLower⟩

/-- Python `s[:n]` on strings. -/
def pyTake (s : String) (n : Nat) : String := ⟨s.data.take n⟩

/-- Python `str.startswith`. -/
def pyStartsWith (s pre : String) : Bool := pre.data.isPrefixOf s.data

/-- Accumulator loop for `splitWhitespace` (the accumulator holds the
current word reversed). -/
def splitWsAux : List Char → List Char → List String
  | [], acc => if acc.isEmpty then [] else [⟨acc.reverse⟩]
  | c :: rest, acc =>
    if Char.isWhitespace c then
      if acc.isEmpty then splitWsAux rest []
      else ⟨acc.reverse⟩ :: splitWsAux rest []
    else splitWsAux rest (c :: acc)

/-- Python `str.split()` with no argument: split on runs of whitespace,
dropping empty pieces. -/
def splitWhitespace (s : String) : List String := splitWsAux s.data []

/-! ## ContentValidator (`ai_manager.py` lines 89-126) -/

/-- `ContentValidator.GENERIC_PATTERNS`. -/
def GENERIC_PATTERNS : List String :=
  ["customizado para", "adequado para", "personalizado",
   "este produto é ideal", "nossa solução", "produto ou serviço",
   "sua empresa", "seu negócio", "mercado específico"]

/-- `ContentValidator.MIN_CONTENT_LENGTH`. -/
def MIN_CONTENT_LENGTH : List (String × Nat) :=
  [("mental_drivers", 500), ("visual_proofs", 300),
   ("anti_objection", 400), ("general", 200)]

/-- `ContentValidator.validate_content`.  The input is `Option String`:
`none` models a non-string argument, `some ""` the empty (falsy) string.
The float comparison `len(set(words)) < len(words) * 0.3` is modelled
exactly over the rationals as `10 * distinct < 3 * total` (0.3 is within
1e-16 of the float constant, and the comparands are integers, so the two
tests agree for all list lengths below 10^15). -/
def validateContent (content : Option String) (component : String) : Bool × String :=
  match content with
  | none => (false, "Conteúdo vazio ou inválido")
  | some c =>
    if c = "" then
      (false, "Conteúdo vazio ou inválido")
    else
      let minLength := (MIN_CONTENT_LENGTH.lookup component).getD 200
      if (pyStrip c).length < minLength then
        (false, "Conteúdo muito curto: " ++ toString c.length ++ " < " ++ toString minLength)
      else
        let genericCount := GENERIC_PATTERNS.countP
          (fun pat => containsSubstr (pyToLower c) (pyToLower pat))
        if genericCount > 3 then
          (false, "Muito genérico: " ++ toString genericCount ++ " padrões encontrados")
        else
          let words := splitWhitespace (pyToLower c)
          if 10 * words.dedup.length < 3 * words.length then
            (false, "Conteúdo muito repetitivo")
          else
            (true, "Conteúdo válido")

/-! ## QuotaManager (`ai_manager.py` lines 37-87) -/

/-- One entry of `QuotaManager.provider_limits`. -/
structure QuotaEntry where
  daily : Nat
  hourly : Nat
  requestsMade : Nat
  lastReset : Nat
deriving DecidableEq

/-- `QuotaManager.provider_limits`, as a finite map. -/
def QuotaState := String → Option QuotaEntry

/-- The initial `provider_limits` dict built in `QuotaManager.__init__`
at construction time `now` (the constructor's `reset_counters()` call is
a no-op at that instant). -/
def initQuotaState (now : Nat) : QuotaState := fun p =>
  if p = "gemini" then some ⟨45, 10, 0, now⟩
  else if p = "openai" then some ⟨1000, 100, 0, now⟩
  else if p = "groq" then some ⟨500, 50, 0, now⟩
  else if p = "huggingface" then some ⟨200, 20, 0, now⟩
  else none

/-- `QuotaManager.reset_counters`: lazily zero every window that is at
least 24h old. -/
def resetCounters (now : Nat) (qs : QuotaState) : QuotaState := fun p =>
  (qs p).map (fun e =>
    if e.lastReset + 86400 ≤ now then { e with requestsMade := 0, lastReset := now } else e)

/-- `QuotaManager.can_use_provider`: runs the lazy reset (mutating the
stored state), then compares the counter with the daily limit. -/
def canUseProvider (now : Nat) (p : String) (qs : QuotaState) : Bool × QuotaState :=
  let qs' := resetCounters now qs
  match qs' p with
  | none => (false, qs')
  | some e => (decide (e.requestsMade < e.daily), qs')

/-- `QuotaManager.increment_usage`: unconditional bump when the provider
is known. -/
def incrementUsage (p : String) (qs : QuotaState) : QuotaState := fun q =>
  if q = p then (qs q).map (fun e => { e with requestsMade := e.requestsMade + 1 }) else qs q

/-- The `priority_map` of `QuotaManager.get_best_provider` (the `general`
row is also the `.get` default). -/
def priorityMap (componentType : String) : List String :=
  if componentType = "mental_drivers" then ["openai", "groq", "gemini", "huggingface"]
  else if componentType = "visual_proofs" then ["gemini", "openai", "groq", "huggingface"]
  else if componentType = "anti_objection" then ["openai", "groq", "gemini", "huggingface"]
  else ["openai", "groq", "gemini", "huggingface"]

/-- The scan inside `get_best_provider`, threading the state mutated by
each `can_use_provider` call. -/
def firstUsable (now : Nat) : List String → QuotaState → Option String × QuotaState
  | [], qs => (none, qs)
  | p :: rest, qs =>
    let (ok, qs') := canUseProvider now p qs
    if ok then (some p, qs') else firstUsable now rest qs'

/-- `QuotaManager.get_best_provider`. -/
def getBestProvider (now : Nat) (componentType : String) (qs : QuotaState) :
    Option String × QuotaState :=
  firstUsable now (priorityMap componentType) qs

/-! ## AIManager state (`ai_manager.py` lines 128-296) -/

/-- One provider record of `AIManager.providers`.  `hasClient` models the
truthiness of the `client` entry; `model` is `none` when the record has no
`'model'` key (the huggingface record only has `'models'`).  Keys that are
absent from some records but read only through `.get` with a default
(`quota_exceeded`, `reactivate_at`) are modelled by their default.
`dailyRequests`/`dailyLimit` are `none` for records without those keys. -/
structure ProviderRec where
  hasClient : Bool
  model : Option String
  models : List String := []
  currentModelIndex : Option Nat := none
  available : Bool
  priority : Nat
  errorCount : Nat
  consecutiveFailures : Nat
  maxErrors : Nat
  lastSuccess : Option Nat
  dailyRequests : Option Nat := none
  dailyLimit : Option Nat := none
  quotaExceeded : Bool := false
  reactivateAt : Nat := 0
deriving DecidableEq

/-- The gemini record built by `initialize_providers`. -/
def geminiRec : ProviderRec :=
  { hasClient := true, model := some ("gemini-2.0-flash-exp"), available := true,
    priority := 1, errorCount := 0, consecutiveFailures := 0, maxErrors := 5,
    lastSuccess := none, dailyRequests := some 0, dailyLimit := some 1500 }

/-- The openai record built by `initialize_providers` (it is the only one
with an explicit `quota_exceeded` key, whose value is the default). -/
def openaiRec : ProviderRec :=
  { hasClient := true, model := some ("gpt-4o-mini"), available := true,
    priority := 2, errorCount := 0, consecutiveFailures := 0, maxErrors := 5,
    lastSuccess := none, dailyRequests := some 0, dailyLimit := some 10000 }

/-- The groq record built by `initialize_providers`. -/
def groqRec : ProviderRec :=
  { hasClient := true, model := some ("llama3-70b-8192"), available := true,
    priority := 3, errorCount := 0, consecutiveFailures := 0, maxErrors := 3,
    lastSuccess := none }

/-- The huggingface record built by `initialize_providers`: it has a
`models` list and `current_model_index`, but no `'model'` key. -/
def huggingfaceRec : ProviderRec :=
  { hasClient := true, model := none,
    models := ["HuggingFaceH4/zephyr-7b-beta", "google/flan-t5-base"],
    currentModelIndex := some 0, available := true,
    priority := 4, errorCount := 0, consecutiveFailures := 0, maxErrors := 5,
    lastSuccess := none }

/-- The whole mutable state of one `AIManager` instance.  `providerNames`
lists the keys of the `providers` dict in insertion order. -/
structure AIState where
  providerNames : List String
  providers : String → Option ProviderRec
  fallbackChain : List String
  providerFailures : String → Option Nat
  disabledProviders : List String
  quota : QuotaState

/-- Pointwise update of a provider map (`self.providers[name][...] = v`;
a no-op when the key is absent, callers guard membership first). -/
def updateProvider (name : String) (f : ProviderRec → ProviderRec)
    (m : String → Option ProviderRec) : String → Option ProviderRec := fun q =>
  if q = name then (m q).map f else m q

/-- `set.add` on the disabled-providers set (kept as a duplicate-free
list). -/
def addDisabled (name : String) (l : List String) : List String :=
  if l.contains name then l else name :: l

/-- The hardcoded initial `self.fallback_chain` from `__init__`. -/
def baseFallbackChain : List String := ["openai", "groq", "gemini", "huggingface"]

/-- Line 289: `self.fallback_chain = [p for p in self.fallback_chain if p
in self.providers and self.providers[p]['available']]`. -/
def computeFallbackChain (providers : String → Option ProviderRec) : List String :=
  baseFallbackChain.filter (fun p =>
    match providers p with
    | some r => r.available
    | none => false)

/-- The provider map built by `initialize_providers`, parameterised by
which of the four credential/library checks succeed. -/
def initProviderMap (g o q h : Bool) : String → Option ProviderRec := fun p =>
  if p = "gemini" ∧ g then some geminiRec
  else if p = "openai" ∧ o then some openaiRec
  else if p = "groq" ∧ q then some groqRec
  else if p = "huggingface" ∧ h then some huggingfaceRec
  else none

/-- The keys of the providers dict in insertion order. -/
def initProviderNames (g o q h : Bool) : List String :=
  (if g then ["gemini"] else []) ++ (if o then ["openai"] else []) ++
  (if q then ["groq"] else []) ++ (if h then ["huggingface"] else [])

/-- The full `AIManager` state right after `__init__` at construction
time `now`, with providers configured according to the four flags. -/
def initialAIState (now : Nat) (g o q h : Bool) : AIState :=
  { providerNames := initProviderNames g o q h
    providers := initProviderMap g o q h
    fallbackChain := computeFallbackChain (initProviderMap g o q h)
    providerFailures := fun _ => none
    disabledProviders := []
    quota := initQuotaState now }

/-! ## Failure / success bookkeeping (`ai_manager.py` lines 298-331) -/

/-- The quota/rate-limit indicators of `_register_failure`. -/
def quotaIndicators : List String :=
  ["quota", "rate limit", "too many requests", "insufficient_quota"]

/-- `any(quota_indicator in error_msg.lower() for ...)`. -/
def isQuotaError (errorMsg : String) : Bool :=
  quotaIndicators.any (fun ind => containsSubstr (pyToLower errorMsg) ind)

/-- `AIManager._register_failure`. -/
def registerFailure (now : Nat) (name errorMsg : String) (st : AIState) : AIState :=
  match st.providers name with
  | none => st
  | some _ =>
    let st1 :=
      if isQuotaError errorMsg then
        { st with
          providers := updateProvider name
            (fun r => { r with quotaExceeded := true, reactivateAt := now + 3600 }) st.providers
          disabledProviders := addDisabled name st.disabledProviders }
      else
        { st with
          providers := updateProvider name
            (fun r => { r with errorCount := r.errorCount + 1,
                               consecutiveFailures := r.consecutiveFailures + 1 }) st.providers }
    let cf := match st1.providers name with
      | some r => r.consecutiveFailures
      | none => 0
    let maxE := match st1.providers name with
      | some r => r.maxErrors
      | none => 0
    let st2 := { st1 with providerFailures := fun q =>
                  if q = name then some cf else st1.providerFailures q }
    if maxE ≤ cf then
      { st2 with disabledProviders := addDisabled name st2.disabledProviders }
    else st2

/-- `AIManager._register_success`. -/
def registerSuccess (now : Nat) (name : String) (st : AIState) : AIState :=
  match st.providers name with
  | none => st
  | some _ =>
    let st1 := { st with
      providers := updateProvider name
        (fun r => { r with consecutiveFailures := 0, lastSuccess := some now }) st.providers }
    if st1.disabledProviders.contains name then
      { st1 with disabledProviders := st1.disabledProviders.erase name }
    else st1

/-! ## Reactivation sweep (`ai_manager.py` lines 570-584) -/

/-- `provider_info.get('reactivate_at', 0)` where `provider_info =
self.providers.get(provider_name, {})`. -/
def raOf (s : AIState) (name : String) : Nat :=
  match s.providers name with
  | some r => r.reactivateAt
  | none => 0

/-- One iteration of the `for provider_name in list(self.disabled_providers)`
loop of `_check_and_reactivate_providers`. -/
def reactivateStep (now : Nat) (s : AIState) (name : String) : AIState :=
  let ra := raOf s name
  if 0 < ra ∧ ra ≤ now then
    { s with
      disabledProviders := s.disabledProviders.erase name
      providers := updateProvider name
        (fun r => { r with quotaExceeded := false, consecutiveFailures := 0,
                           reactivateAt := 0 }) s.providers }
  else s

/-- `AIManager._check_and_reactivate_providers`: iterate over a snapshot
of the disabled set, threading the mutated state. -/
def checkAndReactivate (now : Nat) (st : AIState) : AIState :=
  st.disabledProviders.foldl (reactivateStep now) st

/-! ## Emergency templates (`ai_manager.py` lines 142-191, 511-541) -/

/-- The `mental_drivers` emergency template (apostrophes and double
quotes escaped, text otherwise verbatim). -/
def mentalDriversTemplate : String :=
  "\nDRIVER MENTAL CUSTOMIZADO: {segmento}\n\n1. DRIVER DA TRANSFORMAÇÃO NECESSÁRIA\n- Gatilho: Frustração com resultados atuais\n- Mecânica: Contraste entre situação atual e potencial\n- Ativação: \"Você já tentou de tudo, mas sempre falta algo crucial...\"\n\n2. DRIVER DA OPORTUNIDADE PERDIDA\n- Gatilho: Medo de ficar para trás\n- Mecânica: Urgência competitiva\n- Ativação: \"Enquanto você hesita, seus concorrentes avançam...\"\n\n3. DRIVER DA AUTORIDADE RECONHECIDA\n- Gatilho: Desejo de ser respeitado\n- Mecânica: Validação social\n- Ativação: \"Imagine ser a referência em {segmento}...\"\n"

/-- The `visual_proofs` emergency template. -/
def visualProofsTemplate : String :=
  "\nPROVA VISUAL 1: TRANSFORMAÇÃO DRAMÁTICA\n- Conceito: Antes vs Depois em {segmento}\n- Execução: Comparação visual clara de resultados\n- Materiais: Gráficos, dados, métricas\n\nPROVA VISUAL 2: MÉTODO REVELADO\n- Conceito: Como funciona na prática\n- Execução: Demonstração passo a passo\n- Materiais: Diagramas, fluxogramas\n\nPROVA VISUAL 3: PROVA SOCIAL\n- Conceito: Outros já conseguiram\n- Execução: Cases de sucesso documentados\n- Materiais: Depoimentos, resultados\n"

/-- The `anti_objection` emergency template. -/
def antiObjectionTemplate : String :=
  "\nSISTEMA ANTI-OBJEÇÃO: {segmento}\n\nOBJEÇÃO: \"Não tenho tempo\"\nRESPOSTA: O tempo que você \x27não tem\x27 para se capacitar é exatamente o tempo que está perdendo com ineficiência.\n\nOBJEÇÃO: \"É muito caro\"\nRESPOSTA: O custo de não agir é sempre maior que o investimento em crescimento.\n\nOBJEÇÃO: \"Já tentei outras coisas\"\nRESPOSTA: As tentativas anteriores falharam porque faltava metodologia sistêmica.\n"

/-- `AIManager._load_emergency_templates`: note that no `general` entry
is loaded. -/
def emergencyTemplates : List (String × String) :=
  [("mental_drivers", mentalDriversTemplate),
   ("visual_proofs", visualProofsTemplate),
   ("anti_objection", antiObjectionTemplate)]

/-- Replace every occurrence of `pat` in `s` by `rep` (Python
`str.format` substitution of one named placeholder). -/
def replaceAll (pat rep : List Char) : List Char → List Char
  | [] => []
  | c :: rest =>
    if h : pat ≠ [] ∧ pat.isPrefixOf (c :: rest) then
      rep ++ replaceAll pat rep ((c :: rest).drop pat.length)
    else
      c :: replaceAll pat rep rest
termination_by s => s.length
decreasing_by
  · simp only [List.length_drop, List.length_cons]
    have : 0 < pat.length := List.length_pos.mpr h.1
    omega
  · simp only [List.length_cons]
    omega

/-- `template.format(segmento=..., produto=...)`: the loaded templates
contain only these two placeholders, so `format` cannot raise here. -/
def formatTemplate (t seg prod : String) : String :=
  ⟨replaceAll ("{produto}").data prod.data (replaceAll ("{segmento}").data seg.data t.data)⟩

/-- `AIManager._generate_emergency_content`.  `data` models the context
dict.  Python evaluates the `.get` default `self.emergency_templates['general']`
eagerly, before consulting `component_type`, so the `KeyError` raised by
the missing `general` key is modelled first; the `try` block (placeholder
substitution, which cannot fail on the loaded templates) runs after. -/
def generateEmergencyContent (componentType : String) (data : String → Option String) :
    Except String String :=
  match emergencyTemplates.lookup ("general") with
  | none => .error ("KeyError: general")
  | some g =>
    let template := (emergencyTemplates.lookup componentType).getD g
    let segmento := (data ("segmento")).getD ("negócios")
    let produto := (data ("produto")).getD ("produto/serviço")
    .ok (formatTemplate template segmento produto)

/-! ## Provider attempt (`ai_manager.py` lines 435-509) -/

/-- `AIManager._try_provider_with_validation`.  `outcome` abstracts the
per-provider call block (lines 451-487): `.error msg` when the client
call raises with message `msg`, `.ok r` for the computed `result`.
`provider_info['model']` is read on line 442, before the `try` block, so
a record without a `'model'` key raises a `KeyError` that escapes this
function — hence the `Except` result type.  The `except` on line 506
catches only exceptions raised inside the `try`. -/
def tryProviderWithValidation (now : Nat) (name componentType : String)
    (outcome : Except String (Option String)) (st : AIState) :
    Except String (Option String × AIState) :=
  match st.providers name with
  | none => .ok (none, st)
  | some info =>
    if !info.hasClient then .ok (none, st)
    else
      match info.model with
      | none => .error ("KeyError: model")
      | some _ =>
        let st1 := { st with quota := incrementUsage name st.quota }
        match outcome with
        | .error msg => .ok (none, registerFailure now name msg st1)
        | .ok result =>
          match result with
          | none => .ok (none, st1)
          | some r =>
            if r = "" ∨ (pyStrip r).length < 50 then .ok (none, st1)
            else
              let v := validateContent (some r) componentType
              if !v.1 then
                .ok (none, registerFailure now name ("Conteúdo rejeitado: " ++ v.2) st1)
              else
                .ok (some r, registerSuccess now name st1)

/-! ## Generation pipeline (`ai_manager.py` lines 400-433, 543-568) -/

/-- The `for provider_name in self.fallback_chain` loop of
`generate_analysis`, followed by the final emergency fallback.
`outcomes` gives, per provider name, the behaviour of that provider's
call block for this request. -/
def fallbackLoop (now : Nat) (componentType : String)
    (outcomes : String → Except String (Option String))
    (best : Option String) (data : String → Option String) :
    List String → AIState → Except String (String × AIState)
  | [], st =>
    match generateEmergencyContent componentType data with
    | .error e => .error e
    | .ok txt => .ok (txt, st)
  | name :: rest, st =>
    if best = some name then fallbackLoop now componentType outcomes best data rest st
    else if st.disabledProviders.contains name then
      fallbackLoop now componentType outcomes best data rest st
    else
      let cu := canUseProvider now name st.quota
      let st1 := { st with quota := cu.2 }
      if cu.1 then
        match tryProviderWithValidation now name componentType (outcomes name) st1 with
        | .error e => .error e
        | .ok (some r, st2) => .ok (r, st2)
        | .ok (none, st2) => fallbackLoop now componentType outcomes best data rest st2
      else fallbackLoop now componentType outcomes best data rest st1

/-- `AIManager.generate_analysis`: reactivation sweep, best-provider
attempt, fallback chain, emergency fallback. -/
def generateAnalysis (now : Nat) (componentType : String)
    (outcomes : String → Except String (Option String))
    (data : String → Option String) (st : AIState) :
    Except String (String × AIState) :=
  let st0 := checkAndReactivate now st
  let bp := getBestProvider now componentType st0.quota
  let stq := { st0 with quota := bp.2 }
  let afterBest : Except String (Option String × AIState) :=
    match bp.1 with
    | some b =>
      if stq.disabledProviders.contains b then .ok (none, stq)
      else tryProviderWithValidation now b componentType (outcomes b) stq
    | none => .ok (none, stq)
  match afterBest with
  | .error e => .error e
  | .ok (some r, st1) => .ok (r, st1)
  | .ok (none, st1) => fallbackLoop now componentType outcomes bp.1 data st1.fallbackChain st1

/-- `AIManager.generate_content`: availability guard, then
`generate_analysis`, then the final validation / emergency logic. -/
def generateContent (now : Nat) (componentType : String)
    (outcomes : String → Except String (Option String))
    (data : String → Option String) (st : AIState) :
    Except String (String × AIState) :=
  if !(st.providerNames.any (fun n =>
        match st.providers n with
        | some r => r.available
        | none => false)) then
    .ok ("Erro: Nenhum provedor de IA disponível.", st)
  else
    match generateAnalysis now componentType outcomes data st with
    | .error e => .error e
    | .ok (content, st1) =>
      if content ≠ "" ∧ ¬ pyStartsWith content ("Erro:")
          ∧ ¬ pyStartsWith content ("CONTEÚDO DE EMERGÊNCIA:") then
        let v := validateContent (some content) componentType
        if v.1 then .ok (content, st1)
        else
          match generateEmergencyContent componentType
              (fun k => if k = "segmento" then some componentType else none) with
          | .error e => .error e
          | .ok t => .ok (t, st1)
      else if content = "" then
        match generateEmergencyContent componentType
            (fun k => if k = "segmento" then some componentType else none) with
        | .error e => .error e
        | .ok t => .ok (t, st1)
      else .ok (content, st1)

/-! ## SafeSerializer (`ai_manager.py` lines 333-394)

Python values form an object graph with identity (`id(obj)`), which may
be cyclic, so the input is modelled as a heap: primitives are immediate,
every container lives at a numbered address.  `safe_serialize` adds the
current object's id to the ancestor set and passes a *copy* of that set
to each child (`visited.copy()`), so the `finally: visited.discard(...)`
is unobservable and the function is purely recursive in the ancestor
list.  Primitives are returned before any recursion, and a live
primitive can never share an address with a live ancestor container, so
the circular check is modelled on addressed nodes only. -/

/-- Python primitives passed through unchanged (floats are not used by
the surrounding code and are omitted). -/
inductive PyPrim where
  | noneP : PyPrim
  | boolP : Bool → PyPrim
  | intP : Int → PyPrim
  | strP : String → PyPrim
deriving DecidableEq

/-- A dict key: a string key, or a non-string key together with its
`str(key)` rendering. -/
inductive DictKey where
  | kstr : String → DictKey
  | kother : String → DictKey
deriving DecidableEq

/-- A reference: an immediate primitive or the address of a node. -/
inductive PyRef where
  | prim : PyPrim → PyRef
  | obj : Nat → PyRef
deriving DecidableEq

/-- A heap node: dict, list/tuple, object with `__dict__` (type name plus
the reference of its field dict), or an opaque object (type name plus its
`str()` rendering, `strOk := false` when `str()` itself raises). -/
inductive PyNode where
  | dictN : List (DictKey × PyRef) → PyNode
  | listN : List PyRef → PyNode
  | objN : String → PyRef → PyNode
  | opaqueN : Bool → String → String → PyNode

/-- `type(obj).__name__` of a node. -/
def PyNode.tyName : PyNode → String
  | .dictN _ => "dict"
  | .listN _ => "list"
  | .objN ty _ => ty
  | .opaqueN _ _ ty => ty

/-- The rendered output: primitives, dicts and lists; every marker of the
source is a dict with a single distinguished key. -/
inductive RVal where
  | prim : PyPrim → RVal
  | dictV : List (String × RVal) → RVal
  | listV : List RVal → RVal

/-- `{"__max_depth__": f"Depth limit reached at {depth}"}`. -/
def depthMarkerVal (depth : Nat) : RVal :=
  .dictV [("__max_depth__", .prim (.strP ("Depth limit reached at " ++ toString depth)))]

/-- `{"__circular_ref__": f"{type(obj).__name__}_{obj_id}"}`. -/
def circularMarkerVal (ty : String) (objId : Nat) : RVal :=
  .dictV [("__circular_ref__", .prim (.strP (ty ++ "_" ++ toString objId)))]

/-- `safe_key`: coerce to string (for non-string keys, via their `str`
rendering) and truncate to 100 characters. -/
def safeKey : DictKey → String
  | .kstr s => pyTake s 100
  | .kother r => pyTake r 100

/-- The recursion of `safe_serialize`.  `fuel` is a structural-recursion
bound with the invariant `16 ≤ fuel + depth` at every call: recursion
only happens while `depth ≤ 15` and every child call decrements `fuel`
while incrementing `depth`, so the `fuel = 0` branch is only reachable
with `depth ≥ 16`, where it returns exactly what the depth guard would.
The per-child `try/except` arms and the outer `except` of the source
cannot fire in this model (no step below can raise), and the
`finally: visited.discard` is unobservable (children receive copies). -/
def serializeAux (heap : Nat → Option PyNode) :
    Nat → PyRef → List Nat → Nat → RVal
  | 0, _, _, depth => depthMarkerVal depth
  | fuel + 1, r, visited, depth =>
    if 15 < depth then depthMarkerVal depth
    else
      match r with
      | .prim p => .prim p
      | .obj i =>
        match heap i with
        | none => .dictV [("__unserializable__", .prim (.strP ("dangling")))]
        | some node =>
          if visited.contains i then circularMarkerVal node.tyName i
          else
            let visited' := i :: visited
            match node with
            | .dictN entries =>
              .dictV (entries.map (fun kv =>
                (safeKey kv.1, serializeAux heap fuel kv.2 visited' (depth + 1))))
            | .listN items =>
              .listV ((items.take 50).map (fun it =>
                serializeAux heap fuel it visited' (depth + 1)))
            | .objN _ inner => serializeAux heap fuel inner visited' (depth + 1)
            | .opaqueN true s ty =>
              .dictV [("__string_repr__", .prim (.strP (pyTake s 500))),
                      ("__type__", .prim (.strP ty))]
            | .opaqueN false _ ty =>
              .dictV [("__unserializable__", .prim (.strP ty))]

/-- `AIManager.safe_serialize(obj)` with the default `visited=None`,
`depth=0` (fuel 17 keeps the invariant `16 ≤ fuel + depth`). -/
def safeSerialize (heap : Nat → Option PyNode) (r : PyRef) : RVal :=
  serializeAux heap 17 r [] 0

/-! ## Reference definitions from the specification text

These definitions follow the wording of the spec / claims (not the
source); they exist only to be compared with the source embedding. -/

/-- The rejection categories named by the spec's validator contract. -/
inductive RejectReason where
  | emptyOrInvalid : RejectReason
  | tooShort : RejectReason
  | tooGeneric : RejectReason
  | tooRepetitive : RejectReason
deriving DecidableEq

/-- Modelled from the spec: the four-rule reference validator exactly as
claim C3 states it — rule 2 compares the *length of the text* with the
per-component minimum, rule 4 tokenizes the text on whitespace as-is
(no case folding is mentioned for tokens). -/
def specValidatorLiteral (content : Option String) (component : String) :
    Option RejectReason :=
  match content with
  | none => some .emptyOrInvalid
  | some c =>
    if c = "" then some .emptyOrInvalid
    else if c.length < (MIN_CONTENT_LENGTH.lookup component).getD 200 then
      some .tooShort
    else if 3 < GENERIC_PATTERNS.countP
        (fun pat => containsSubstr (pyToLower c) (pyToLower pat)) then
      some .tooGeneric
    else
      let ws := splitWhitespace c
      if 10 * ws.dedup.length < 3 * ws.length then some .tooRepetitive
      else none

/-- The reference validator amended to match the source: rule 2 measures
the whitespace-stripped text, rule 4 lowercases before tokenizing. -/
def specValidatorAmended (content : Option String) (component : String) :
    Option RejectReason :=
  match content with
  | none => some .emptyOrInvalid
  | some c =>
    if c = "" then some .emptyOrInvalid
    else if (pyStrip c).length < (MIN_CONTENT_LENGTH.lookup component).getD 200 then
      some .tooShort
    else if 3 < GENERIC_PATTERNS.countP
        (fun pat => containsSubstr (pyToLower c) (pyToLower pat)) then
      some .tooGeneric
    else
      let ws := splitWhitespace (pyToLower c)
      if 10 * ws.dedup.length < 3 * ws.length then some .tooRepetitive
      else none

/-- Render a reference verdict in the source's `(bool, reason)` format,
reconstructing the interpolated values from the input. -/
def renderValidation (res : Option RejectReason) (content : Option String)
    (component : String) : Bool × String :=
  let c := content.getD ("")
  let minLength := (MIN_CONTENT_LENGTH.lookup component).getD 200
  let genericCount := GENERIC_PATTERNS.countP
    (fun pat => containsSubstr (pyToLower c) (pyToLower pat))
  match res with
  | some .emptyOrInvalid => (false, "Conteúdo vazio ou inválido")
  | some .tooShort =>
    (false, "Conteúdo muito curto: " ++ toString c.length ++ " < " ++ toString minLength)
  | some .tooGeneric =>
    (false, "Muito genérico: " ++ toString genericCount ++ " padrões encontrados")
  | some .tooRepetitive => (false, "Conteúdo muito repetitivo")
  | none => (true, "Conteúdo válido")

/-- Insertion into a list sorted ascending by a numeric key. -/
def insertByKey (key : String → Nat) (x : String) : List String → List String
  | [] => [x]
  | y :: ys => if key x ≤ key y then x :: y :: ys else y :: insertByKey key x ys

/-- Insertion sort by a numeric key (ascending, stable). -/
def sortByKey (key : String → Nat) : List String → List String
  | [] => []
  | x :: xs => insertByKey key x (sortByKey key xs)

/-- Modelled from the spec: "the subset of configured providers that are
available, ordered by the providers' priority attribute with lower
priority values tried first" (claim C5). -/
def specPriorityChain (st : AIState) : List String :=
  sortByKey
    (fun n => match st.providers n with
      | some r => r.priority
      | none => 99)
    (st.providerNames.filter (fun n =>
      match st.providers n with
      | some r => r.available
      | none => false))

/-! ## Observation helpers and concrete scenarios -/

/-- The generated text of a `generate` result, when no exception escaped. -/
def resultTextOf : Except String (String × AIState) → Option String
  | .ok (r, _) => some r
  | .error _ => none

/-- The generated text, defaulting to `""` on an escaped exception. -/
def resultTextD : Except String (String × AIState) → String
  | .ok (r, _) => r
  | .error _ => ""

/-- A provider record in the post-state of a `generate` result. -/
def stateProviderOf : Except String (String × AIState) → String → Option ProviderRec
  | .ok (_, st), n => st.providers n
  | .error _, _ => none

/-- The post-state of a `generate` result, with a default for the error
case. -/
def stateOfD (e : Except String (String × AIState)) (dflt : AIState) : AIState :=
  match e with
  | .ok (_, st) => st
  | .error _ => dflt

/-- An empty manager state (used only as a default for `stateOfD`). -/
def emptyAIState : AIState :=
  { providerNames := [], providers := fun _ => none, fallbackChain := []
    providerFailures := fun _ => none, disabledProviders := []
    quota := fun _ => none }

/-- 26 distinct lowercase words, 169 characters, no generic phrase. -/
def variedBody : String :=
  "alfa bravo carta delta ecos foxtrote golfe hotel india julieta kilos limas mikes novembro oscar papai quebec romeu serra tango uniforme victor whiskey xadrez ianque zulu"

/-- `variedBody` plus 40 trailing spaces: raw length 209 (≥ 200), but
stripped length 169 (< 200). -/
def paddedContent : String := variedBody ++ ⟨List.replicate 40 ' '⟩

/-- 35 distinct lowercase words, 217 characters: accepted by the
validator for the `general` component. -/
def longVariedText : String :=
  variedBody ++ " unos duos tres quatro cinco seis sete oito nove"

/-- An openai record whose circuit breaker has just tripped
(`consecutive_failures = max_errors = 5`). -/
def trippedOpenaiRec : ProviderRec :=
  { openaiRec with errorCount := 5, consecutiveFailures := 5 }

/-- An openai record one non-quota failure away from tripping. -/
def nearTripOpenaiRec : ProviderRec :=
  { openaiRec with errorCount := 4, consecutiveFailures := 4 }

/-- A two-provider state in which openai is circuit-open (disabled, no
reactivation time) and gemini is healthy. -/
def c7State : AIState :=
  { providerNames := ["gemini", "openai"]
    providers := fun n =>
      if n = "gemini" then some geminiRec
      else if n = "openai" then some trippedOpenaiRec
      else none
    fallbackChain := ["openai", "gemini"]
    providerFailures := fun n => if n = "openai" then some 5 else none
    disabledProviders := ["openai"]
    quota := initQuotaState 0 }

/-- Outcomes for the circuit-breaker scenario: gemini produces a long
valid text; anything else would raise if it were ever attempted. -/
def c7Outcomes : String → Except String (Option String) := fun n =>
  if n = "gemini" then .ok (some longVariedText) else .error ("should not be reached")

/-- A two-provider state with openai healthy but one failure from
tripping. -/
def c7WitState : AIState :=
  { providerNames := ["gemini", "openai"]
    providers := fun n =>
      if n = "gemini" then some geminiRec
      else if n = "openai" then some nearTripOpenaiRec
      else none
    fallbackChain := ["openai", "gemini"]
    providerFailures := fun _ => none
    disabledProviders := []
    quota := initQuotaState 0 }

/-- Two outcome assignments that differ only at `openai`. -/
def c7AltOutcomes1 : String → Except String (Option String) := fun n =>
  if n = "openai" then .error ("boom") else .ok none

/-- See `c7AltOutcomes1`. -/
def c7AltOutcomes2 : String → Except String (Option String) := fun n =>
  if n = "openai" then .ok (some longVariedText) else .ok none

/-- Two outcome assignments that differ only at `gemini`. -/
def c6AltOutcomes1 : String → Except String (Option String) := fun n =>
  if n = "gemini" then .error ("boom") else .ok none

/-- See `c6AltOutcomes1`. -/
def c6AltOutcomes2 : String → Except String (Option String) := fun n =>
  if n = "gemini" then .ok (some longVariedText) else .ok none

/-- A heap with a single dict that contains itself. -/
def selfRefHeap : Nat → Option PyNode := fun i =>
  if i = 0 then some (.dictN [(.kstr ("self"), .obj 0)]) else none

/-- A heap of 17 nested singleton lists (node `i` holds node `i+1`). -/
def deepHeap : Nat → Option PyNode := fun i =>
  if i ≤ 16 then
    some (.listN [if i = 16 then .prim (.intP 7) else .obj (i + 1)])
  else none

/-- A heap where two sibling dict entries share one (acyclic) list. -/
def sharedHeap : Nat → Option PyNode := fun i =>
  if i = 0 then some (.dictN [(.kstr ("a"), .obj 1), (.kstr ("b"), .obj 1)])
  else if i = 1 then some (.listN [.prim (.intP 3)])
  else none

/-- A heap with one opaque object whose `str()` raises. -/
def badObjHeap : Nat → Option PyNode := fun i =>
  if i = 0 then some (.opaqueN false ("") "WeirdType") else none

/-- A heap whose root is a list of the primitives `ps`. -/
def primListHeap (ps : List PyPrim) : Nat → Option PyNode := fun i =>
  if i = 0 then some (.listN (ps.map .prim)) else none

/-- `n` nestings of a singleton rendered list around `v`. -/
def nestedListVal : Nat → RVal → RVal
  | 0, v => v
  | n + 1, v => .listV [nestedListVal n v]

/-! ## Helper lemmas -/

theorem contains_iff_mem (l : List String) (a : String) :
    l.contains a = true ↔ a ∈ l := by
  simp [List.contains, List.elem_iff]

theorem mem_addDisabled_of_mem {a q : String} {l : List String} (h : a ∈ l) :
    a ∈ addDisabled q l := by
  unfold addDisabled
  split
  · exact h
  · exact List.mem_cons_of_mem _ h

theorem mem_addDisabled_self (q : String) (l : List String) :
    q ∈ addDisabled q l := by
  unfold addDisabled
  split
  next hc => exact (contains_iff_mem l q).mp hc
  next => exact List.mem_cons_self _ _

theorem addDisabled_not_mem {q : String} {l : List String} (h : ¬ q ∈ l) :
    addDisabled q l = q :: l := by
  unfold addDisabled
  rw [if_neg]
  intro hc
  exact h ((contains_iff_mem l q).mp hc)

theorem registerFailure_disabled_shape (now : Nat) (q msg : String) (st : AIState) :
    (registerFailure now q msg st).disabledProviders = st.disabledProviders ∨
    (registerFailure now q msg st).disabledProviders = addDisabled q st.disabledProviders ∨
    (registerFailure now q msg st).disabledProviders
      = addDisabled q (addDisabled q st.disabledProviders) := by
  unfold registerFailure
  cases st.providers q with
  | none => left; rfl
  | some r =>
    dsimp only
    split
    · split
      · right; right; rfl
      · right; left; rfl
    · split
      · right; left; rfl
      · left; rfl

theorem registerFailure_mem_disabled {a : String} (now : Nat) (q msg : String)
    (st : AIState) (h : a ∈ st.disabledProviders) :
    a ∈ (registerFailure now q msg st).disabledProviders := by
  rcases registerFailure_disabled_shape now q msg st with hs | hs | hs <;> rw [hs]
  · exact h
  · exact mem_addDisabled_of_mem h
  · exact mem_addDisabled_of_mem (mem_addDisabled_of_mem h)

theorem registerFailure_chain (now : Nat) (q msg : String) (st : AIState) :
    (registerFailure now q msg st).fallbackChain = st.fallbackChain := by
  unfold registerFailure
  cases st.providers q with
  | none => rfl
  | some r =>
    dsimp only
    split
    · split <;> rfl
    · split <;> rfl

theorem registerSuccess_mem_disabled {a q : String} (now : Nat) (st : AIState)
    (hne : a ≠ q) (h : a ∈ st.disabledProviders) :
    a ∈ (registerSuccess now q st).disabledProviders := by
  unfold registerSuccess
  cases st.providers q with
  | none => exact h
  | some r =>
    dsimp only
    split
    · exact (List.mem_erase_of_ne hne).mpr h
    · exact h

theorem registerSuccess_chain (now : Nat) (q : String) (st : AIState) :
    (registerSuccess now q st).fallbackChain = st.fallbackChain := by
  unfold registerSuccess
  cases st.providers q with
  | none => rfl
  | some r =>
    dsimp only
    split <;> rfl

theorem reactivateStep_self_skip (now : Nat) (s : AIState) (a : String)
    (hcond : ¬(0 < raOf s a ∧ raOf s a ≤ now)) :
    reactivateStep now s a = s := by
  unfold reactivateStep
  exact if_neg hcond

theorem reactivateStep_other_providers (now : Nat) (s : AIState) (e a : String)
    (hne : a ≠ e) :
    (reactivateStep now s e).providers a = s.providers a := by
  unfold reactivateStep
  dsimp only
  split
  · simp [updateProvider, hne]
  · rfl

theorem reactivateStep_other_mem (now : Nat) (s : AIState) (e a : String)
    (hne : a ≠ e) (h : a ∈ s.disabledProviders) :
    a ∈ (reactivateStep now s e).disabledProviders := by
  unfold reactivateStep
  dsimp only
  split
  · exact (List.mem_erase_of_ne hne).mpr h
  · exact h

theorem reactivateStep_other_not_mem (now : Nat) (s : AIState) (e : String) {a : String}
    (h : a ∉ s.disabledProviders) :
    a ∉ (reactivateStep now s e).disabledProviders := by
  unfold reactivateStep
  dsimp only
  split
  · intro hm
    exact h (List.mem_of_mem_erase hm)
  · exact h

theorem reactivateStep_chain (now : Nat) (s : AIState) (e : String) :
    (reactivateStep now s e).fallbackChain = s.fallbackChain := by
  unfold reactivateStep
  dsimp only
  split <;> rfl

theorem sweep_keep (now : Nat) (a : String) :
    ∀ (l : List String) (st : AIState),
      a ∈ st.disabledProviders →
      ¬(0 < raOf st a ∧ raOf st a ≤ now) →
      a ∈ (l.foldl (reactivateStep now) st).disabledProviders ∧
      (l.foldl (reactivateStep now) st).providers a = st.providers a := by
  intro l
  induction l with
  | nil => exact fun st h _ => ⟨h, rfl⟩
  | cons e rest ih =>
    intro st h hc
    simp only [List.foldl_cons]
    by_cases he : a = e
    · subst he
      rw [reactivateStep_self_skip now st a hc]
      exact ih st h hc
    · have hp := reactivateStep_other_providers now st e a he
      have hm := reactivateStep_other_mem now st e a he h
      have hra : raOf (reactivateStep now st e) a = raOf st a := by
        unfold raOf
        rw [hp]
      obtain ⟨m1, p1⟩ := ih (reactivateStep now st e) hm (by rw [hra]; exact hc)
      exact ⟨m1, by rw [p1, hp]⟩

theorem sweep_untouched (now : Nat) (a : String) :
    ∀ (l : List String) (st : AIState),
      (∀ e ∈ l, e ≠ a) →
      a ∉ st.disabledProviders →
      a ∉ (l.foldl (reactivateStep now) st).disabledProviders ∧
      (l.foldl (reactivateStep now) st).providers a = st.providers a := by
  intro l
  induction l with
  | nil => exact fun st _ h => ⟨h, rfl⟩
  | cons e rest ih =>
    intro st hl h
    simp only [List.foldl_cons]
    have hne : a ≠ e := fun heq => (hl e (List.mem_cons_self _ _)) heq.symm
    have hp := reactivateStep_other_providers now st e a hne
    have hm := reactivateStep_other_not_mem now st e h
    obtain ⟨m1, p1⟩ := ih (reactivateStep now st e)
      (fun x hx => hl x (List.mem_cons_of_mem _ hx)) hm
    exact ⟨m1, by rw [p1, hp]⟩

theorem sweep_chain (now : Nat) :
    ∀ (l : List String) (st : AIState),
      (l.foldl (reactivateStep now) st).fallbackChain = st.fallbackChain := by
  intro l
  induction l with
  | nil => exact fun _ => rfl
  | cons e rest ih =>
    intro st
    simp only [List.foldl_cons]
    rw [ih (reactivateStep now st e), reactivateStep_chain]

theorem tryProvider_ok_state (now : Nat) (q c : String)
    (oc : Except String (Option String)) (st : AIState) (res : Option String)
    (st' : AIState)
    (h : tryProviderWithValidation now q c oc st = .ok (res, st')) :
    st' = st ∨
    st' = { st with quota := incrementUsage q st.quota } ∨
    (∃ msg, st' = registerFailure now q msg { st with quota := incrementUsage q st.quota }) ∨
    st' = registerSuccess now q { st with quota := incrementUsage q st.quota } := by
  unfold tryProviderWithValidation at h
  split at h
  · cases h
    left; rfl
  · split at h
    · cases h
      left; rfl
    · split at h
      · cases h
      · split at h
        · cases h
          right; right; left
          exact ⟨_, rfl⟩
        · split at h
          · cases h
            right; left; rfl
          · split at h
            · cases h
              right; left; rfl
            · dsimp only at h
              split at h
              · cases h
                right; right; left
                exact ⟨_, rfl⟩
              · cases h
                right; right; right; rfl

theorem tryProvider_chain (now : Nat) (q c : String)
    (oc : Except String (Option String)) (st : AIState) (res : Option String)
    (st' : AIState)
    (h : tryProviderWithValidation now q c oc st = .ok (res, st')) :
    st'.fallbackChain = st.fallbackChain := by
  rcases tryProvider_ok_state now q c oc st res st' h with hs | hs | ⟨msg, hs⟩ | hs <;>
    subst hs
  · rfl
  · rfl
  · rw [registerFailure_chain]
  · rw [registerSuccess_chain]

theorem tryProvider_mem_disabled {a q : String} (now : Nat) (c : String)
    (oc : Except String (Option String)) (st : AIState) (res : Option String)
    (st' : AIState) (hne : a ≠ q)
    (h : tryProviderWithValidation now q c oc st = .ok (res, st'))
    (ha : a ∈ st.disabledProviders) :
    a ∈ st'.disabledProviders := by
  rcases tryProvider_ok_state now q c oc st res st' h with hs | hs | ⟨msg, hs⟩ | hs <;>
    subst hs
  · exact ha
  · exact ha
  · exact registerFailure_mem_disabled now q msg _ ha
  · exact registerSuccess_mem_disabled now _ hne ha

theorem fallbackLoop_congr (now : Nat) (c : String)
    (o1 o2 : String → Except String (Option String)) (best : Option String)
    (data : String → Option String) (a : String)
    (hagree : ∀ q, q ≠ a → o1 q = o2 q) :
    ∀ (chain : List String) (st : AIState), a ∈ st.disabledProviders →
      fallbackLoop now c o1 best data chain st
        = fallbackLoop now c o2 best data chain st := by
  intro chain
  induction chain with
  | nil => intro st _; rfl
  | cons e rest ih =>
    intro st ha
    unfold fallbackLoop
    by_cases hb : best = some e
    · rw [if_pos hb, if_pos hb]
      exact ih st ha
    · rw [if_neg hb, if_neg hb]
      by_cases hd : st.disabledProviders.contains e = true
      · simp only [hd, if_true]
        exact ih st ha
      · simp only [hd, if_false]
        have hea : e ≠ a := by
          intro heq
          subst heq
          exact hd ((contains_iff_mem _ e).mpr ha)
        rw [hagree e hea]
        by_cases hcu : (canUseProvider now e st.quota).1 = true
      
        · simp only [hcu, if_true]
          cases htp : tryProviderWithValidation now e c (o2 e)
              { st with quota := (canUseProvider now e st.quota).2 } with
          | error err => rfl
          | ok pr =>
            obtain ⟨pres, pst⟩ := pr
            cases pres with
            | some r => rfl
            | none =>
              exact ih pst (tryProvider_mem_disabled now c (o2 e) _ none pst
                (fun heq => hea heq.symm) htp ha)
        · simp only [hcu, if_false]
          exact ih { st with quota := (canUseProvider now e st.quota).2 } ha

theorem generateAnalysis_congr (now : Nat) (c : String)
    (o1 o2 : String → Except String (Option String)) (data : String → Option String)
    (a : String) (st : AIState)
    (hagree : ∀ q, q ≠ a → o1 q = o2 q)
    (ha : a ∈ st.disabledProviders)
    (hra : ¬(0 < raOf st a ∧ raOf st a ≤ now)) :
    generateAnalysis now c o1 data st = generateAnalysis now c o2 data st := by
  have hsweep := sweep_keep now a st.disabledProviders st ha hra
  unfold generateAnalysis checkAndReactivate
  dsimp only
  set S := List.foldl (reactivateStep now) st st.disabledProviders with hS
  set bp := getBestProvider now c S.quota with hbp
  cases hb : bp.1 with
  | none =>
    simp only [hb]
    exact fallbackLoop_congr now c o1 o2 none data a hagree _ _ hsweep.1
  | some b =>
    simp only [hb]
    by_cases hd : S.disabledProviders.contains b = true
    · simp only [hd, if_true]
      exact fallbackLoop_congr now c o1 o2 (some b) data a hagree _ _ hsweep.1
    · simp only [hd, Bool.false_eq_true, if_false]
      have hba : b ≠ a := by
        intro heq
        subst heq
        exact hd ((contains_iff_mem _ b).mpr hsweep.1)
      rw [hagree b hba]
      cases htp : tryProviderWithValidation now b c (o2 b) { S with quota := bp.2 } with
      | error err => simp only [htp]
      | ok pr =>
        obtain ⟨pres, pst⟩ := pr
        cases pres with
        | some r => simp only [htp]
        | none =>
          simp only [htp]
          exact fallbackLoop_congr now c o1 o2 (some b) data a hagree _ pst
            (tryProvider_mem_disabled now c (o2 b) _ none pst
              (fun heq => hba heq.symm) htp hsweep.1)

theorem fallbackLoop_chain (now : Nat) (c : String)
    (oc : String → Except String (Option String)) (best : Option String)
    (data : String → Option String) :
    ∀ (chain : List String) (st : AIState) (res : String) (st' : AIState),
      fallbackLoop now c oc best data chain st = .ok (res, st') →
      st'.fallbackChain = st.fallbackChain := by
  intro chain
  induction chain with
  | nil =>
    intro st res st' h
    unfold fallbackLoop at h
    split at h
    · exact Except.noConfusion h
    · simp only [Except.ok.injEq, Prod.mk.injEq] at h
      rw [← h.2]
  | cons e rest ih =>
    intro st res st' h
    unfold fallbackLoop at h
    split at h
    · exact ih st res st' h
    · split at h
      · exact ih st res st' h
      · dsimp only at h
        split at h
        · split at h
          next htp => exact Except.noConfusion h
          next r st2 htp =>
            simp only [Except.ok.injEq, Prod.mk.injEq] at h
            rw [← h.2]
            have hc := tryProvider_chain now e c (oc e) _ _ st2 htp
            exact hc
          next st2 htp =>
            rw [ih st2 res st' h]
            have hc := tryProvider_chain now e c (oc e) _ _ st2 htp
            exact hc
        · have hc := ih { st with quota := (canUseProvider now e st.quota).2 } res st' h
          exact hc

theorem generateAnalysis_chain (now : Nat) (c : String)
    (oc : String → Except String (Option String)) (data : String → Option String)
    (st : AIState) (res : String) (st' : AIState)
    (h : generateAnalysis now c oc data st = .ok (res, st')) :
    st'.fallbackChain = st.fallbackChain := by
  have hsw : (List.foldl (reactivateStep now) st st.disabledProviders).fallbackChain
      = st.fallbackChain := sweep_chain now _ st
  unfold generateAnalysis checkAndReactivate at h
  dsimp only at h
  split at h
  next herr => exact Except.noConfusion h
  next r st1 heq =>
    simp only [Except.ok.injEq, Prod.mk.injEq] at h
    rw [← h.2]
    split at heq
    · split at heq
      · simp at heq
      · have hc := tryProvider_chain now _ c _ _ _ st1 heq
        rw [hc]
        exact hsw
    · simp at heq
  next st1 heq =>
    rw [fallbackLoop_chain now c oc _ data _ st1 res st' h]
    split at heq
    · split at heq
      · simp only [Except.ok.injEq, Prod.mk.injEq, true_and] at heq
        rw [← heq]
        exact hsw
      · have hc := tryProvider_chain now _ c _ _ _ st1 heq
        rw [hc]
        exact hsw
    · simp only [Except.ok.injEq, Prod.mk.injEq, true_and] at heq
      rw [← heq]
      exact hsw

theorem incrementUsage_self (p : String) (qs : QuotaState) :
    incrementUsage p qs p
      = (qs p).map (fun e => { e with requestsMade := e.requestsMade + 1 }) := by
  unfold incrementUsage
  rw [if_pos rfl]

theorem iterate_incrementUsage (p : String) (qs : QuotaState) (e : QuotaEntry)
    (h : qs p = some e) :
    ∀ k : Nat, ((incrementUsage p)^[k] qs) p
      = some { e with requestsMade := e.requestsMade + k } := by
  intro k
  induction k with
  | zero =>
    simp only [Function.iterate_zero, id_eq, Nat.add_zero, h]
  | succ k ih =>
    rw [Function.iterate_succ_apply', incrementUsage_self, ih]
    simp only [Option.map_some', Nat.add_assoc]

/-! ## Claim theorems -/

/-- Claim C1 (code bug): the claim says no attempt against any configured
provider — in particular one whose record lacks a `model` key — can raise
out of `generate`.  The code violates this: with only the huggingface
provider configured (its record has `models` but no `model`),
`_try_provider_with_validation` reads `provider_info['model']` *before*
its `try` block, and the resulting `KeyError` propagates through
`generate_analysis` and out of `generate_content`. -/
theorem c1_generate_raises :
    generateContent 0 "general" (fun _ => .ok none) (fun _ => none)
      (initialAIState 0 false false false true) = .error ("KeyError: model") := by
  rfl

/-- Claim C2 (code bug): the claim says the emergency path picks the
component template, falls back to a generic template, and never raises.
In the code `_load_emergency_templates` loads no `general` template, and
`self.emergency_templates.get(component_type, self.emergency_templates['general'])`
evaluates the default eagerly, so the emergency path *always* raises
`KeyError: general` — for every component type and context data — and an
exhausted provider chain therefore raises out of `generate_analysis`. -/
theorem c2_emergency_always_raises :
    (∀ (componentType : String) (data : String → Option String),
      generateEmergencyContent componentType data = .error ("KeyError: general"))
    ∧ generateAnalysis 0 "general" (fun _ => .error ("boom")) (fun _ => none)
        (initialAIState 0 true false false false) = .error ("KeyError: general") := by
  constructor
  · intro c d
    rfl
  · rfl

/-- Witness for `c2_emergency_always_raises` at a concrete component type
and context mapping. -/
theorem c2_emergency_always_raises_witness :
    generateEmergencyContent ("general") (fun _ => none) = .error ("KeyError: general") :=
  c2_emergency_always_raises.1 ("general") (fun _ => none)

/-- Claim C8 (confirmed): the serializer is total (it is a terminating
function in this model) and (i) a self-referential mapping renders a
circular-reference marker at the point of cycle, (ii) nesting beyond the
depth limit renders a depth-limit marker, (iii) sibling branches sharing
one object are not flagged as cyclic (the ancestor set is passed by
copy), (iv) an un-inspectable object whose `str()` fails is swallowed
into a marker instead of raising. -/
theorem c8_safe_serializer :
    safeSerialize selfRefHeap (.obj 0)
        = .dictV [("self", circularMarkerVal ("dict") 0)]
    ∧ safeSerialize deepHeap (.obj 0) = nestedListVal 16 (depthMarkerVal 16)
    ∧ safeSerialize sharedHeap (.obj 0)
        = .dictV [("a", .listV [.prim (.intP 3)]), ("b", .listV [.prim (.intP 3)])]
    ∧ safeSerialize badObjHeap (.obj 0)
        = .dictV [("__unserializable__", .prim (.strP ("WeirdType")))] := by
  exact ⟨rfl, rfl, rfl, rfl⟩

/-- Claim C9 counterexample: a 51-element sequence serializes to exactly
its first 50 rendered elements and nothing else — there is no truncation
marker (the code iterates `obj[:50]` and appends no marker), contradicting
the claim that a marker is emitted for the omitted elements. -/
theorem c9_counterexample :
    safeSerialize (primListHeap ((List.range 51).map (fun n => PyPrim.intP n))) (.obj 0)
      = .listV ((List.range 50).map (fun n => RVal.prim (.intP n)))
    ∧ ((List.range 50).map (fun n => RVal.prim (.intP n))).length = 50 := by
  exact ⟨rfl, rfl⟩

theorem serializeAux_prim (heap : Nat → Option PyNode) (fuel : Nat) (p : PyPrim)
    (v : List Nat) (d : Nat) (hd : d ≤ 15) :
    serializeAux heap (fuel + 1) (.prim p) v d = .prim p := by
  rw [serializeAux]
  rw [if_neg (by omega)]

theorem serializeAux_listN (heap : Nat → Option PyNode) (fuel : Nat) (i : Nat)
    (items : List PyRef) (v : List Nat) (d : Nat) (hd : d ≤ 15)
    (hh : heap i = some (.listN items)) (hv : v.contains i = false) :
    serializeAux heap (fuel + 1) (.obj i) v d
      = .listV ((items.take 50).map (fun it =>
          serializeAux heap fuel it (i :: v) (d + 1))) := by
  rw [serializeAux]
  rw [if_neg (by omega)]
  dsimp only
  rw [hh]
  dsimp only
  simp only [hv, Bool.false_eq_true, if_false]

/-- Claim C9 amended: for any sequence, the serializer renders exactly
the first 50 elements (so `min 50 n` rendered elements for an `n`-element
sequence) and silently drops the rest; no truncation marker is added. -/
theorem c9_amended (ps : List PyPrim) :
    safeSerialize (primListHeap ps) (.obj 0) = .listV ((ps.take 50).map RVal.prim)
    ∧ ((ps.take 50).map RVal.prim).length = min 50 ps.length := by
  constructor
  · unfold safeSerialize
    rw [serializeAux_listN (primListHeap ps) 16 0 (ps.map PyRef.prim) [] 0 (by omega)
      (by unfold primListHeap; rw [if_pos rfl]) rfl]
    rw [← List.map_take, List.map_map]
    apply congrArg
    apply List.map_congr_left
    intro p _
    exact serializeAux_prim (primListHeap ps) 15 p [0] 1 (by omega)
  · rw [List.length_map, List.length_take]

/-- Witness for `c9_amended` at a concrete 51-element list. -/
theorem c9_amended_witness :
    safeSerialize (primListHeap (List.replicate 51 PyPrim.noneP)) (.obj 0)
        = .listV (((List.replicate 51 PyPrim.noneP).take 50).map RVal.prim)
    ∧ (((List.replicate 51 PyPrim.noneP).take 50).map RVal.prim).length
        = min 50 (List.replicate 51 PyPrim.noneP).length :=
  c9_amended (List.replicate 51 PyPrim.noneP)

/-- Claim C10 (confirmed): when the provider call returns a result that
is empty or shorter than 50 characters after stripping, the attempt
returns `None` and the *only* state change is the quota increment already
made for the attempt: providers (hence `consecutive_failures` and
`error_count`), the disabled set and the failure map are untouched, so no
failure is registered and the circuit breaker cannot trip. -/
theorem c10_short_result_frame (now : Nat) (name componentType : String)
    (st : AIState) (info : ProviderRec) (m txt : String)
    (hp : st.providers name = some info)
    (hc : info.hasClient = true)
    (hm : info.model = some m)
    (hshort : (pyStrip txt).length < 50) :
    tryProviderWithValidation now name componentType (.ok (some txt)) st
      = .ok (none, { st with quota := incrementUsage name st.quota }) := by
  unfold tryProviderWithValidation
  rw [hp]
  dsimp only
  rw [hc]
  simp only [Bool.not_true, Bool.false_eq_true, if_false]
  rw [hm]
  dsimp only
  rw [if_pos (Or.inr hshort)]

/-- Witness for `c10_short_result_frame`: a gemini attempt that returns
the 5-character string `"curto"`. -/
theorem c10_short_result_frame_witness :
    tryProviderWithValidation 0 "gemini" "general" (.ok (some ("curto")))
        (initialAIState 0 true false false false)
      = .ok (none, { initialAIState 0 true false false false with
                      quota := incrementUsage ("gemini") (initialAIState 0 true false false false).quota }) :=
  c10_short_result_frame 0 "gemini" "general" (initialAIState 0 true false false false)
    geminiRec ("gemini-2.0-flash-exp") "curto" rfl rfl rfl (by decide)

/-- Claim C3 counterexample: the validator does not equal the claim's
reference definition.  On a 209-character text with 40 trailing spaces
(stripped length 169), the code rejects as too short (it measures the
*stripped* length; its own message even reads "209 < 200"), while the
reference as claimed (plain length vs the 200 default) accepts. -/
theorem c3_counterexample :
    (validateContent (some paddedContent) ("general")).1 = false
    ∧ specValidatorLiteral (some paddedContent) ("general") = none := by
  exact ⟨rfl, rfl⟩

/-- Claim C3 amended: the validator equals the four-rule reference with
two changes — rule 2 compares the *whitespace-stripped* length against
the per-component minimum, and rule 4 lowercases the text before
tokenizing.  Rules are applied in order and the first failing rule
determines the rejection reason (rendered in the source's exact
`(bool, message)` format). -/
theorem c3_amended (content : Option String) (component : String) :
    validateContent content component
      = renderValidation (specValidatorAmended content component) content component := by
  cases content with
  | none => rfl
  | some c =>
    unfold validateContent specValidatorAmended renderValidation
    dsimp only
    by_cases h0 : c = ""
    · rw [if_pos h0, if_pos h0]
    · rw [if_neg h0, if_neg h0]
      by_cases hs : (pyStrip c).length < (MIN_CONTENT_LENGTH.lookup component).getD 200
      · rw [if_pos hs, if_pos hs]
        rfl
      · rw [if_neg hs, if_neg hs]
        by_cases hg : 3 < GENERIC_PATTERNS.countP
            (fun pat => containsSubstr (pyToLower c) (pyToLower pat))
        · rw [if_pos hg, if_pos hg]
          rfl
        · rw [if_neg hg, if_neg hg]
          by_cases hr : 10 * (splitWhitespace (pyToLower c)).dedup.length
              < 3 * (splitWhitespace (pyToLower c)).length
          · rw [if_pos hr, if_pos hr]
          · rw [if_neg hr, if_neg hr]

/-- Witness for `c3_amended` at a concrete accepted input. -/
theorem c3_amended_witness :
    validateContent (some longVariedText) ("general")
      = renderValidation (specValidatorAmended (some longVariedText) ("general"))
          (some longVariedText) ("general") :=
  c3_amended (some longVariedText) ("general")

/-- Claim C4 (confirmed): for a provider with daily limit `L`, after
exactly `L` increments inside one window `canUse` is false at every
instant before the 24h boundary (and leaves the entry untouched, so it
keeps answering false), and at any instant at or past the boundary the
lazy reset zeroes the counter and `canUse` answers true again. -/
theorem c4_quota_window (p : String) (qs0 : QuotaState) (e : QuotaEntry)
    (L t0 now1 now2 : Nat)
    (he : qs0 p = some e) (hd : e.daily = L) (hr : e.requestsMade = 0)
    (hl : e.lastReset = t0) (hL : 0 < L)
    (h1 : now1 < t0 + 86400) (h2 : t0 + 86400 ≤ now2) :
    (canUseProvider now1 p ((incrementUsage p)^[L] qs0)).1 = false
    ∧ (canUseProvider now1 p ((incrementUsage p)^[L] qs0)).2 p
        = ((incrementUsage p)^[L] qs0) p
    ∧ (canUseProvider now2 p ((incrementUsage p)^[L] qs0)).1 = true
    ∧ (canUseProvider now2 p ((incrementUsage p)^[L] qs0)).2 p
        = some { e with requestsMade := 0, lastReset := now2 } := by
  have hit := iterate_incrementUsage p qs0 e he L
  have hq1 : resetCounters now1 ((incrementUsage p)^[L] qs0) p
      = some { e with requestsMade := e.requestsMade + L } := by
    unfold resetCounters
    rw [hit]
    simp only [Option.map_some']
    rw [if_neg]
    dsimp only
    omega
  have hq2 : resetCounters now2 ((incrementUsage p)^[L] qs0) p
      = some { e with requestsMade := 0, lastReset := now2 } := by
    unfold resetCounters
    rw [hit]
    simp only [Option.map_some']
    rw [if_pos]
    dsimp only
    omega
  unfold canUseProvider
  dsimp only
  rw [hq1, hq2]
  dsimp only
  rw [hq1, hq2, hit]
  refine ⟨?_, rfl, ?_, rfl⟩
  · simp only [decide_eq_false_iff_not]
    omega
  · simp only [decide_eq_true_eq]
    omega

/-- Witness for `c4_quota_window`: the gemini window (limit 45) opened at
time 0, exhausted by 45 increments, queried at 86399 and 86400. -/
theorem c4_quota_window_witness :
    (canUseProvider 86399 "gemini" ((incrementUsage ("gemini"))^[45] (initQuotaState 0))).1 = false
    ∧ (canUseProvider 86399 "gemini" ((incrementUsage ("gemini"))^[45] (initQuotaState 0))).2 "gemini"
        = ((incrementUsage ("gemini"))^[45] (initQuotaState 0)) "gemini"
    ∧ (canUseProvider 86400 "gemini" ((incrementUsage ("gemini"))^[45] (initQuotaState 0))).1 = true
    ∧ (canUseProvider 86400 "gemini" ((incrementUsage ("gemini"))^[45] (initQuotaState 0))).2 "gemini"
        = some { daily := 45, hourly := 10, requestsMade := 0, lastReset := 86400 } :=
  c4_quota_window ("gemini") (initQuotaState 0) ⟨45, 10, 0, 0⟩ 45 0 86399 86400
    rfl rfl rfl rfl (by omega) (by omega) (by omega)

/-- Claim C5 counterexample: with gemini (priority 1) and openai
(priority 2) both configured and available, the startup chain is
`["openai", "gemini"]` — the hardcoded base order — while ordering by
the priority attribute would give `["gemini", "openai"]`. -/
theorem c5_counterexample :
    (initialAIState 0 true true false false).fallbackChain = ["openai", "gemini"]
    ∧ specPriorityChain (initialAIState 0 true true false false) = ["gemini", "openai"]
    ∧ (["openai", "gemini"] : List String) ≠ ["gemini", "openai"] := by
  refine ⟨rfl, rfl, ?_⟩
  decide

/-- Claim C5 amended: the startup fallback chain is the subset of
configured available providers in the *fixed hardcoded order*
`[openai, groq, gemini, huggingface]` — which does not coincide with the
priority attribute (gemini has priority 1 yet sits third) — and no
operation re-orders it afterwards: failure registration, success
registration, the reactivation sweep and a whole `generate_analysis`
call all leave `fallback_chain` unchanged. -/
theorem c5_amended (g o q h : Bool) (now now2 : Nat)
    (c msg nm : String) (oc : String → Except String (Option String))
    (data : String → Option String) (st : AIState) (res : String) (st' : AIState)
    (hgen : generateAnalysis now2 c oc data st = .ok (res, st')) :
    (initialAIState now g o q h).fallbackChain
      = (if o then ["openai"] else []) ++ (if q then ["groq"] else [])
        ++ (if g then ["gemini"] else []) ++ (if h then ["huggingface"] else [])
    ∧ geminiRec.priority = 1 ∧ openaiRec.priority = 2 ∧ groqRec.priority = 3
    ∧ huggingfaceRec.priority = 4
    ∧ (registerFailure now2 nm msg st).fallbackChain = st.fallbackChain
    ∧ (registerSuccess now2 nm st).fallbackChain = st.fallbackChain
    ∧ (checkAndReactivate now2 st).fallbackChain = st.fallbackChain
    ∧ st'.fallbackChain = st.fallbackChain := by
  refine ⟨?_, rfl, rfl, rfl, rfl, registerFailure_chain now2 nm msg st,
    registerSuccess_chain now2 nm st, sweep_chain now2 _ st,
    generateAnalysis_chain now2 c oc data st res st' hgen⟩
  cases g <;> cases o <;> cases q <;> cases h <;> rfl

/-- Witness for `c5_amended` on a concrete two-provider state and a
successful concrete `generate_analysis` run. -/
theorem c5_amended_witness :
    (initialAIState 0 true true false false).fallbackChain
      = (if true then ["openai"] else []) ++ (if false then ["groq"] else [])
        ++ (if true then ["gemini"] else []) ++ (if false then ["huggingface"] else [])
    ∧ geminiRec.priority = 1 ∧ openaiRec.priority = 2 ∧ groqRec.priority = 3
    ∧ huggingfaceRec.priority = 4
    ∧ (registerFailure 0 "gemini" "msg" c7State).fallbackChain = c7State.fallbackChain
    ∧ (registerSuccess 0 "gemini" c7State).fallbackChain = c7State.fallbackChain
    ∧ (checkAndReactivate 0 c7State).fallbackChain = c7State.fallbackChain
    ∧ (stateOfD (generateAnalysis 0 ("general") c7Outcomes (fun _ => none) c7State)
        emptyAIState).fallbackChain = c7State.fallbackChain :=
  c5_amended true true false false 0 0 "general" "msg" "gemini" c7Outcomes (fun _ => none)
    c7State (resultTextD (generateAnalysis 0 ("general") c7Outcomes (fun _ => none) c7State))
    (stateOfD (generateAnalysis 0 ("general") c7Outcomes (fun _ => none) c7State) emptyAIState)
    rfl

theorem updateProvider_self (name : String) (f : ProviderRec → ProviderRec)
    (m : String → Option ProviderRec) :
    updateProvider name f m name = (m name).map f := by
  unfold updateProvider
  rw [if_pos rfl]

theorem addDisabled_idem (name : String) (l : List String) :
    addDisabled name (addDisabled name l) = addDisabled name l := by
  unfold addDisabled
  by_cases hc : l.contains name
  · rw [if_pos hc, if_pos hc]
  · rw [if_neg hc]
    rw [if_pos (by simp [List.contains_cons])]

theorem registerFailure_quota (now : Nat) (name msg : String) (st : AIState)
    (r : ProviderRec) (hp : st.providers name = some r)
    (hq : isQuotaError msg = true) :
    (registerFailure now name msg st).providers name
      = some { r with quotaExceeded := true, reactivateAt := now + 3600 }
    ∧ (registerFailure now name msg st).disabledProviders
      = addDisabled name st.disabledProviders := by
  unfold registerFailure
  rw [hp]
  dsimp only
  simp only [hq, if_true]
  rw [updateProvider_self, hp]
  simp only [Option.map_some']
  by_cases ht : r.maxErrors ≤ r.consecutiveFailures
  · rw [if_pos ht]
    refine ⟨?_, addDisabled_idem name st.disabledProviders⟩
    dsimp only
    rw [updateProvider_self, hp]
    rfl
  · rw [if_neg ht]
    refine ⟨?_, rfl⟩
    dsimp only
    rw [updateProvider_self, hp]
    rfl

/-- Claim C6 (confirmed): a failure whose message carries a quota/rate-limit
indicator suspends the provider — disabled set, `quota_exceeded := true`,
`reactivate_at := now + 1h` — without touching its consecutive-failure or
error counters; before the cooldown the sweep leaves it suspended and
`generate_analysis` never consults it (its outcome is irrelevant to the
whole call); at or after the reactivation time the first sweep removes it
from the disabled set, clears the quota flag and zeroes its consecutive
failures. -/
theorem c6_quota_suspension (now now1 now2 : Nat) (name msg c : String)
    (o1 o2 : String → Except String (Option String)) (data : String → Option String)
    (st : AIState) (r : ProviderRec)
    (hp : st.providers name = some r)
    (hq : isQuotaError msg = true)
    (hnd : name ∉ st.disabledProviders)
    (h1 : now1 < now + 3600)
    (h2 : now + 3600 ≤ now2)
    (hagree : ∀ q, q ≠ name → o1 q = o2 q) :
    ((registerFailure now name msg st).providers name
        = some { r with quotaExceeded := true, reactivateAt := now + 3600 })
    ∧ name ∈ (registerFailure now name msg st).disabledProviders
    ∧ (name ∈ (checkAndReactivate now1 (registerFailure now name msg st)).disabledProviders
        ∧ (checkAndReactivate now1 (registerFailure now name msg st)).providers name
            = (registerFailure now name msg st).providers name)
    ∧ (name ∉ (checkAndReactivate now2 (registerFailure now name msg st)).disabledProviders
        ∧ (checkAndReactivate now2 (registerFailure now name msg st)).providers name
            = some { r with quotaExceeded := false, consecutiveFailures := 0,
                            reactivateAt := 0 })
    ∧ generateAnalysis now1 c o1 data (registerFailure now name msg st)
        = generateAnalysis now1 c o2 data (registerFailure now name msg st) := by
  obtain ⟨hst1p, hst1d⟩ := registerFailure_quota now name msg st r hp hq
  set st1 := registerFailure now name msg st with hst1
  have hd1 : st1.disabledProviders = name :: st.disabledProviders := by
    rw [hst1d, addDisabled_not_mem hnd]
  have hmem1 : name ∈ st1.disabledProviders := by
    rw [hd1]
    exact List.mem_cons_self _ _
  have hra1 : raOf st1 name = now + 3600 := by
    unfold raOf
    rw [hst1p]
  have hcond1 : ¬(0 < raOf st1 name ∧ raOf st1 name ≤ now1) := by
    rw [hra1]
    intro hcontra
    omega
  refine ⟨hst1p, hmem1, ?_, ?_, ?_⟩
  · exact sweep_keep now1 name st1.disabledProviders st1 hmem1 hcond1
  · have hstep : reactivateStep now2 st1 name
        = { st1 with
            disabledProviders := st1.disabledProviders.erase name
            providers := updateProvider name
              (fun r => { r with quotaExceeded := false, consecutiveFailures := 0,
                                 reactivateAt := 0 }) st1.providers } := by
      unfold reactivateStep
      rw [hra1]
      rw [if_pos ⟨by omega, h2⟩]
    have hd2 : (reactivateStep now2 st1 name).disabledProviders = st.disabledProviders := by
      rw [hstep]
      dsimp only
      rw [hd1, List.erase_cons_head]
    have hp2 : (reactivateStep now2 st1 name).providers name
        = some { r with quotaExceeded := false, consecutiveFailures := 0,
                        reactivateAt := 0 } := by
      rw [hstep]
      dsimp only
      rw [updateProvider_self, hst1p]
      rfl
    have hall : ∀ e ∈ st.disabledProviders, e ≠ name := fun e he heq => hnd (heq ▸ he)
    have hu := sweep_untouched now2 name st.disabledProviders (reactivateStep now2 st1 name)
      hall (by rw [hd2]; exact hnd)
    have hchr : checkAndReactivate now2 st1
        = List.foldl (reactivateStep now2) (reactivateStep now2 st1 name)
            st.disabledProviders := by
      unfold checkAndReactivate
      rw [hd1, List.foldl_cons]
    constructor
    · rw [hchr]
      exact hu.1
    · rw [hchr, hu.2]
      exact hp2
  · exact generateAnalysis_congr now1 c o1 o2 data name st1 hagree hmem1 hcond1

/-- Witness for `c6_quota_suspension`: gemini hits a quota error at time 0
in a fresh two-provider manager; queried at times 100 and 3600. -/
theorem c6_quota_suspension_witness :
    ((registerFailure 0 "gemini" "429 quota exceeded" (initialAIState 0 true true false false)).providers ("gemini")
        = some { geminiRec with quotaExceeded := true, reactivateAt := 0 + 3600 })
    ∧ "gemini" ∈ (registerFailure 0 "gemini" "429 quota exceeded"
        (initialAIState 0 true true false false)).disabledProviders
    ∧ ("gemini" ∈ (checkAndReactivate 100 (registerFailure 0 "gemini" "429 quota exceeded"
          (initialAIState 0 true true false false))).disabledProviders
        ∧ (checkAndReactivate 100 (registerFailure 0 "gemini" "429 quota exceeded"
            (initialAIState 0 true true false false))).providers ("gemini")
            = (registerFailure 0 "gemini" "429 quota exceeded"
                (initialAIState 0 true true false false)).providers ("gemini"))
    ∧ ("gemini" ∉ (checkAndReactivate 3600 (registerFailure 0 "gemini" "429 quota exceeded"
          (initialAIState 0 true true false false))).disabledProviders
        ∧ (checkAndReactivate 3600 (registerFailure 0 "gemini" "429 quota exceeded"
            (initialAIState 0 true true false false))).providers ("gemini")
            = some { geminiRec with
                      quotaExceeded := false
                      consecutiveFailures := 0
                      reactivateAt := 0 })
    ∧ generateAnalysis 100 "general" c6AltOutcomes1 (fun _ => none)
        (registerFailure 0 "gemini" "429 quota exceeded" (initialAIState 0 true true false false))
        = generateAnalysis 100 "general" c6AltOutcomes2 (fun _ => none)
            (registerFailure 0 "gemini" "429 quota exceeded"
              (initialAIState 0 true true false false)) :=
  c6_quota_suspension 0 100 3600 "gemini" "429 quota exceeded" "general"
    c6AltOutcomes1 c6AltOutcomes2 (fun _ => none)
    (initialAIState 0 true true false false) geminiRec
    rfl rfl (List.not_mem_nil ("gemini")) (by omega) (by omega)
    (by
      intro q hq
      unfold c6AltOutcomes1 c6AltOutcomes2
      rw [if_neg hq, if_neg hq])

theorem registerFailure_nonquota (now : Nat) (name msg : String) (st : AIState)
    (r : ProviderRec) (hp : st.providers name = some r)
    (hq : isQuotaError msg = false) :
    (registerFailure now name msg st).providers name
      = some { r with errorCount := r.errorCount + 1,
                      consecutiveFailures := r.consecutiveFailures + 1 }
    ∧ (r.maxErrors ≤ r.consecutiveFailures + 1 →
        (registerFailure now name msg st).disabledProviders
          = addDisabled name st.disabledProviders)
    ∧ (¬ r.maxErrors ≤ r.consecutiveFailures + 1 →
        (registerFailure now name msg st).disabledProviders = st.disabledProviders) := by
  unfold registerFailure
  rw [hp]
  dsimp only
  simp only [hq, Bool.false_eq_true, if_false]
  rw [updateProvider_self, hp]
  simp only [Option.map_some']
  by_cases ht : r.maxErrors ≤ r.consecutiveFailures + 1
  · rw [if_pos ht]
    refine ⟨?_, fun _ => rfl, fun hc => absurd ht hc⟩
    dsimp only
    rw [updateProvider_self, hp]
    rfl
  · rw [if_neg ht]
    refine ⟨?_, fun hc => absurd hc ht, fun _ => rfl⟩
    dsimp only
    rw [updateProvider_self, hp]
    rfl

/-- Claim C7 (confirmed): a non-quota failure increments both counters,
and once `consecutive_failures` reaches `max_errors` the provider joins
the disabled set with no reactivation time; the sweep never removes it
(its `reactivate_at` is 0), every subsequent `generate_analysis` is
independent of that provider's behaviour (it is skipped during
selection), while in a concrete two-provider state with openai tripped,
the healthy gemini is still selected and serves the request with
openai's record untouched. -/
theorem c7_circuit_breaker (now now3 : Nat) (name msg c : String)
    (o1 o2 : String → Except String (Option String)) (data : String → Option String)
    (st : AIState) (r : ProviderRec)
    (hp : st.providers name = some r)
    (hq : isQuotaError msg = false)
    (htrip : r.maxErrors ≤ r.consecutiveFailures + 1)
    (hra : r.reactivateAt = 0)
    (hagree : ∀ q, q ≠ name → o1 q = o2 q) :
    ((registerFailure now name msg st).providers name
        = some { r with errorCount := r.errorCount + 1,
                        consecutiveFailures := r.consecutiveFailures + 1 })
    ∧ name ∈ (registerFailure now name msg st).disabledProviders
    ∧ name ∈ (checkAndReactivate now3 (registerFailure now name msg st)).disabledProviders
    ∧ generateAnalysis now3 c o1 data (registerFailure now name msg st)
        = generateAnalysis now3 c o2 data (registerFailure now name msg st)
    ∧ resultTextOf (generateAnalysis 0 ("general") c7Outcomes (fun _ => none) c7State)
        = some longVariedText
    ∧ stateProviderOf (generateAnalysis 0 ("general") c7Outcomes (fun _ => none) c7State)
        "openai" = some trippedOpenaiRec := by
  obtain ⟨hp1, hdj⟩ := registerFailure_nonquota now name msg st r hp hq
  set st1 := registerFailure now name msg st with hst1
  have hd1 : st1.disabledProviders = addDisabled name st.disabledProviders := hdj.1 htrip
  have hmem1 : name ∈ st1.disabledProviders := by
    rw [hd1]
    exact mem_addDisabled_self name st.disabledProviders
  have hra1 : raOf st1 name = 0 := by
    unfold raOf
    rw [hp1]
    exact hra
  have hcond : ¬(0 < raOf st1 name ∧ raOf st1 name ≤ now3) := by
    rw [hra1]
    intro hc
    omega
  exact ⟨hp1, hmem1, (sweep_keep now3 name st1.disabledProviders st1 hmem1 hcond).1,
    generateAnalysis_congr now3 c o1 o2 data name st1 hagree hmem1 hcond, rfl, rfl⟩

/-- Witness for `c7_circuit_breaker`: openai's fifth consecutive
non-quota failure ("timeout") in a fresh two-provider state. -/
theorem c7_circuit_breaker_witness :
    ((registerFailure 0 "openai" "timeout" c7WitState).providers ("openai")
        = some { nearTripOpenaiRec with
                  errorCount := nearTripOpenaiRec.errorCount + 1
                  consecutiveFailures := nearTripOpenaiRec.consecutiveFailures + 1 })
    ∧ "openai" ∈ (registerFailure 0 "openai" "timeout" c7WitState).disabledProviders
    ∧ "openai" ∈ (checkAndReactivate 50
        (registerFailure 0 "openai" "timeout" c7WitState)).disabledProviders
    ∧ generateAnalysis 50 "general" c7AltOutcomes1 (fun _ => none)
        (registerFailure 0 "openai" "timeout" c7WitState)
        = generateAnalysis 50 "general" c7AltOutcomes2 (fun _ => none)
            (registerFailure 0 "openai" "timeout" c7WitState)
    ∧ resultTextOf (generateAnalysis 0 ("general") c7Outcomes (fun _ => none) c7State)
        = some longVariedText
    ∧ stateProviderOf (generateAnalysis 0 ("general") c7Outcomes (fun _ => none) c7State)
        "openai" = some trippedOpenaiRec :=
  c7_circuit_breaker 0 50 "openai" "timeout" "general" c7AltOutcomes1 c7AltOutcomes2
    (fun _ => none) c7WitState nearTripOpenaiRec rfl rfl (by decide) rfl
    (by
      intro q hq
      unfold c7AltOutcomes1 c7AltOutcomes2
      rw [if_neg hq, if_neg hq])
